import Mathlib

/-!
Verification of `warranty_pdf_generator/models/warranty_pdf_generator.py`
(Odoo module generating per-product warranty certificate PDFs for an invoice).

The Python model methods are shallowly embedded as executable Lean functions.
Python strings are `String`, loosely-typed Studio fields are modelled by a
three-variant value (`absent` / explicit `False` / a string), fallible Python
code returns `Except`, and the methods that raise/catch exceptions are
translated with their `try`/`except` structure made explicit.
-/

namespace WarrantyPdf

/-- Python string-method helper: does `l` start with `needle` (character lists)?
Used to embed the `in` containment test and `str.replace`. -/
def leadsWith : List Char → List Char → Bool
  | [], _ => true
  | _ :: _, [] => false
  | a :: as, b :: bs => if a = b then leadsWith as bs else false

/-- Python `needle in hay` on character lists: `needle` occurs as a contiguous
subsequence of `hay`. -/
def hasSub (needle : List Char) : List Char → Bool
  | [] => leadsWith needle []
  | b :: bs => leadsWith needle (b :: bs) || hasSub needle bs

/-- Python `needle in hay` for strings (case-sensitive containment). -/
def strHas (hay needle : String) : Bool := hasSub needle.toList hay.toList

/-- One step of Python `str.replace`: scan left to right, replacing each
non-overlapping occurrence of `old` by `new`.  The fuel argument (instantiated
with the length of the scanned list) makes the recursion structural; every
step consumes at least one character, so the fuel is always sufficient.
The `old = ""` Python corner case never arises in the embedded code
(the needles are " muaj" and " month"). -/
def replListFuel (old new : List Char) : Nat → List Char → List Char
  | 0, l => l
  | _ + 1, [] => []
  | fuel + 1, c :: cs =>
    if leadsWith old (c :: cs) && !old.isEmpty then
      new ++ replListFuel old new fuel ((c :: cs).drop old.length)
    else
      c :: replListFuel old new fuel cs

/-- Python `s.replace(old, new)` (all occurrences, left to right). -/
def pyReplace (s old new : String) : String :=
  (replListFuel old.toList new.toList s.toList.length s.toList).asString

/-- Characters removed by Python `str.strip()` (ASCII whitespace). -/
def isSpaceChar (c : Char) : Bool :=
  c = ' ' || c = '\t' || c = '\n' || c = '\r' || c = '\x0b' || c = '\x0c'

/-- Python `s.strip()`: remove leading and trailing whitespace. -/
def pyStrip (s : String) : String :=
  (((s.toList.dropWhile isSpaceChar).reverse.dropWhile isSpaceChar).reverse).asString

/-- Python truthiness-based default for strings: `s if s else dflt`
(an empty string is falsy). -/
def pyOrStr (s dflt : String) : String := if s = "" then dflt else s

/-- The raw value of the loosely-typed `x_studio_warranty` product field:
either the attribute is absent, or it is the Python `False` sentinel
("warranty explicitly not set"), or it is a string. -/
inductive WVal where
  | absent
  | fls
  | str (s : String)
deriving DecidableEq

/-- A product record as read by the generator: `product.id`,
`product.display_name`, `product.name` (an Odoo falsy/absent name is `none`)
and the Studio warranty field. -/
structure Product where
  pid : Nat
  display_name : String
  pname : Option String
  warranty : WVal
deriving DecidableEq

/-- An invoice line; `product` is `none` when `line.product_id` is falsy. -/
structure InvoiceLine where
  product : Option Product
deriving DecidableEq

/-- A date value for `invoice_date` (already a `date` object in the source). -/
structure PyDate where
  year : Nat
  month : Nat
  day : Nat
deriving DecidableEq

/-- The invoice record (`account.move`) fields the generator reads, plus the
wall-clock timestamp string (`datetime.now().strftime` is modelled as an
input, formatted `%Y%m%d_%H%M%S`). -/
structure Invoice where
  mid : Nat
  name : String
  partner_name : Option String
  invoice_date : Option PyDate
  lines : List InvoiceLine
  now : String
deriving DecidableEq

/-- Lines 44-54 of `generate_warranty_pdfs`: the eligibility filter.  A line
with no product is skipped; a product with id 7884 or 6 is skipped; a product
whose display name contains "Gift Card" is skipped; every other product is
collected in invoice-line order. -/
def eligibleProducts (ls : List InvoiceLine) : List Product :=
  ls.filterMap fun l =>
    match l.product with
    | none => none
    | some p =>
      if p.pid = 7884 ∨ p.pid = 6 then none
      else if strHas p.display_name "Gift Card" = true then none
      else some p

/-- Lines 67-71: the products whose `x_studio_warranty` is the explicit
Python `False` sentinel (`getattr(product, "x_studio_warranty", None) is
False`). -/
def missingWarrantyProducts (ps : List Product) : List Product :=
  ps.filter fun p => p.warranty == WVal.fls

/-- Lines 161-162: default the warranty period string to "1" when it is
empty. -/
def defaultIfEmpty (s : String) : String := if s = "" then "1" else s

/-- Line 160 of the source: `str(value).replace(" muaj", "").replace(" month", "").strip()`. -/
def stripWarranty (s : String) : String :=
  pyStrip (pyReplace (pyReplace s " muaj" "") " month" "")

/-- Lines 156-162: the full warranty normalisation.  `getattr` with default
`"1"` turns an absent attribute into the string "1"; the explicit `False`
sentinel becomes "1"; otherwise the suffix occurrences are removed and the
result stripped; an empty result defaults to "1". -/
def warrantyPeriodOfRaw (w : WVal) : String :=
  defaultIfEmpty
    (match (match w with | WVal.absent => WVal.str "1" | x => x) with
     | WVal.fls => "1"
     | WVal.absent => "1"
     | WVal.str s => stripWarranty s)

/-- Python strftime field `%d` / `%m`, zero-padded to two digits. -/
def pad2 (n : Nat) : String := if n < 10 then "0" ++ Nat.repr n else Nat.repr n

/-- Python strftime field `%Y`, zero-padded to four digits. -/
def pad4 (n : Nat) : String :=
  if n < 10 then "000" ++ Nat.repr n
  else if n < 100 then "00" ++ Nat.repr n
  else if n < 1000 then "0" ++ Nat.repr n
  else Nat.repr n

/-- Line 166 of the source: format `invoice_date` as `%d/%m/%Y` when present,
else the empty string. -/
def formatInvoiceDate : Option PyDate → String
  | none => ""
  | some d => pad2 d.day ++ "/" ++ pad2 d.month ++ "/" ++ pad4 d.year

/-- The certificate content assembled by
`_create_warranty_content_professional` for one build of the document: the
five field values stamped into the fixed-layout story.  One call of
`_create_warranty_pdf_direct` builds exactly one such certificate. -/
structure Certificate where
  customer_name : String
  product_name : String
  warranty_period : String
  invoice_number : String
  invoice_date : String
deriving DecidableEq

/-- The produced PDF: the ordered list of certificates it contains. -/
abbrev Pdf := List Certificate

/-- The Python value bound to the parameter `product` of
`_create_warranty_pdf_direct`.  The docstring documents a single product
record, but the caller at line 88 passes the whole Python list `products`. -/
inductive PyArg where
  | record (p : Product)
  | pylist (ps : List Product)
deriving DecidableEq

/-- Attribute lookup `product.name` (line 153).  On a record it reads the
field; on a Python
list the attribute does not exist, so an `AttributeError` is raised. -/
def pyGetName : PyArg → Except String (Option String)
  | PyArg.record p => Except.ok p.pname
  | PyArg.pylist _ => Except.error "list object has no attribute name"

/-- Python `getattr(product, "x_studio_warranty", "1")` (line 156); `getattr`
with a default never raises, so on a list it yields the default string "1". -/
def pyGetWarranty : PyArg → WVal
  | PyArg.record p => match p.warranty with
    | WVal.absent => WVal.str "1"
    | w => w
  | PyArg.pylist _ => WVal.str "1"

/-- Attribute lookup `product.id` (evaluated inside the `except` handler at
line 181).  On a
Python list the attribute does not exist, so an `AttributeError` is raised
from within the handler itself. -/
def pyGetId : PyArg → Except String Nat
  | PyArg.record p => Except.ok p.pid
  | PyArg.pylist _ => Except.error "list object has no attribute id"

/-- The successful composition of one certificate story (lines 169-178). -/
def composePdf (customer product warranty invno invdate : String) : Pdf :=
  [⟨customer, product, warranty, invno, invdate⟩]

/-- Method `_create_warranty_pdf_direct` (lines 130-182), as invoked on an
argument
`arg`.  The `try` body reads the partner name (line 150, cannot raise),
`product.name` (line 153, raises on a list), normalises the warranty and
formats the invoice data, and builds one certificate PDF.  On an exception
the handler logs a message whose f-string evaluates `product.id`: if that
lookup itself raises, the new exception escapes the method (`Except.error`);
otherwise the method returns Python `None` (`Except.ok none`). -/
def createWarrantyPdfDirect (inv : Invoice) (arg : PyArg) :
    Except String (Option Pdf) :=
  let attempt : Except String Pdf := do
    let customer_name := pyOrStr (inv.partner_name.getD "") "___________________"
    let nm ← pyGetName arg
    let product_name := pyOrStr (nm.getD "") "________________"
    let warranty_period := warrantyPeriodOfRaw (pyGetWarranty arg)
    let invoice_number := inv.name
    let invoice_date := formatInvoiceDate inv.invoice_date
    pure (composePdf customer_name product_name warranty_period invoice_number invoice_date)
  match attempt with
  | Except.ok pdf => Except.ok (some pdf)
  | Except.error _e =>
    match pyGetId arg with
    | Except.error e2 => Except.error e2
    | Except.ok _ => Except.ok none

/-- Line 102: `f"garancia_{self.name}_{timestamp}.pdf"`. -/
def warrantyFilename (invName ts : String) : String :=
  s!"garancia_{invName}_{ts}.pdf"

/-- The caller-visible outcomes of `generate_warranty_pdfs`: the "no valid
products" warning notification (lines 56-65), the missing-warranty
confirmation wizard action with the affected product ids (lines 75-85), the
"failed to generate" danger notification (lines 90-99), the download action
for the created attachment (lines 101-116), and the danger notification
produced by the outer `except` (lines 118-128). -/
inductive GenResult where
  | noProductsWarning
  | missingWizard (moveId : Nat) (productIds : List Nat)
  | pdfError
  | downloadUrl (filename : String) (pdf : Pdf)
  | genError (msg : String)
deriving DecidableEq

/-- Lines 87-116: the rendering stage of `generate_warranty_pdfs` once the
filter and the confirmation pre-check have passed: the whole `products` list
is passed as the `product` argument of `_create_warranty_pdf_direct`; an
escaping exception is caught by the outer `except` (lines 118-128). -/
def renderStage (inv : Invoice) (products : List Product) : GenResult :=
  match createWarrantyPdfDirect inv (PyArg.pylist products) with
  | Except.error msg => GenResult.genError ("Error generating warranty PDF: " ++ msg)
  | Except.ok none => GenResult.pdfError
  | Except.ok (some pdf) => GenResult.downloadUrl (warrantyFilename inv.name inv.now) pdf

/-- Method `generate_warranty_pdfs` (lines 40-128) with the context flag
`confirm_missing_warranty` as the `confirm` argument.  The wizard method
`action_print` (lines 764-766) re-invokes this function with
`confirm = true`. -/
def generate_warranty_pdfs (inv : Invoice) (confirm : Bool) : GenResult :=
  if eligibleProducts inv.lines = [] then GenResult.noProductsWarning
  else if missingWarrantyProducts (eligibleProducts inv.lines) ≠ [] ∧ confirm = false then
    GenResult.missingWizard inv.mid
      ((missingWarrantyProducts (eligibleProducts inv.lines)).map Product.pid)
  else renderStage inv (eligibleProducts inv.lines)

/-- Python `sep.join(parts)` on character lists. -/
def pyJoin (sep : Char) : List (List Char) → List Char
  | [] => []
  | [x] => x
  | x :: y :: ys => x ++ sep :: pyJoin sep (y :: ys)

/-- Worker for Python `s.split(sep)`; `acc` holds the reversed current
chunk. -/
def pySplitAux (sep : Char) : List Char → List Char → List (List Char)
  | [], acc => [acc.reverse]
  | c :: cs, acc =>
    if c = sep then acc.reverse :: pySplitAux sep cs []
    else pySplitAux sep cs (c :: acc)

/-- Python `s.split(sep)` with an explicit one-character separator
(so `"".split(",") = [""]`). -/
def pySplit (sep : Char) (l : List Char) : List (List Char) :=
  pySplitAux sep l []

/-- The `ir.config_parameter` key-value store. -/
def Store := String → Option String

/-- A store with no parameters set. -/
def emptyStore : Store := fun _ => none

/-- Odoo `config.set_param(key, value)`. -/
def setParam (st : Store) (k v : String) : Store :=
  fun q => if q = k then some v else st q

/-- Odoo `config.get_param(key, default)`. -/
def getParam (st : Store) (k d : String) : String := (st k).getD d

/-- The pair returned by `WarrantyPdfSettings.get_settings` (lines 728-735). -/
structure SettingsOut where
  exclude_product_ids : List String
  default_warranty_period : String
deriving DecidableEq

/-- Method `get_settings` (lines 728-735): read
`warranty_pdf.exclude_product_ids`
(default "7884") and split it on commas; read
`warranty_pdf.default_warranty_period` (default "1"). -/
def get_settings (st : Store) : SettingsOut :=
  { exclude_product_ids :=
      (pySplit ',' (getParam st "warranty_pdf.exclude_product_ids" "7884").toList).map
        List.asString
    default_warranty_period := getParam st "warranty_pdf.default_warranty_period" "1" }

/-- Method `save_settings` (lines 737-753): store the comma-joined decimal
ids of
the selected `exclude_product_ids` (or the literal "7884" when the
selection is empty), and the `default_warranty_period` (or "1" when it is
falsy). -/
def save_settings (ids : List Nat) (period : String) (st : Store) : Store :=
  let exclude_ids :=
    if ids = [] then "7884"
    else (pyJoin ',' (ids.map fun i => (Nat.repr i).toList)).asString
  let st1 := setParam st "warranty_pdf.exclude_product_ids" exclude_ids
  setParam st1 "warranty_pdf.default_warranty_period" (pyOrStr period "1")

/-- Where, inside the `try` block of `_create_customer_product_section`
(lines 585-688), a rendering error is raised: at the very first statement
(the construction of `form_label_style`, lines 587-594) or at any later
statement of the block. -/
inductive SectionStep where
  | styleCreation
  | afterStyle
deriving DecidableEq

/-- A drawable block of the certificate story, at the granularity the
customer/product section needs: a plain text paragraph, or the structured
main table whose left side holds the three label/value field rows and whose
right side is the filled title banner. -/
inductive Block where
  | para (text : String)
  | fieldsWithBanner (rows : List (String × String)) (banner : String)
deriving DecidableEq

/-- Method `_create_customer_product_section` (lines 571-700), with an
explicit
failure oracle `failAt` saying whether (and where) the `try` block raises a
rendering error.  On success the story is the structured main table with the
three field rows and the "FLETË GARANCIE" banner.  On a failure the `except`
handler computes the safe field values and then emits three plain-text
paragraphs styled with `form_label_style` — a name bound by the first
statement of the `try` block, so when that first statement was the one that
raised, the handler itself raises a `NameError` that escapes the method. -/
def createCustomerProductSection (customer_name product_name warranty_period : String)
    (failAt : Option SectionStep) : Except String (List Block) :=
  match failAt with
  | none =>
    let safe_customer := pyOrStr customer_name "___________________"
    let safe_product := pyOrStr product_name "________________"
    let safe_warranty := pyOrStr warranty_period "1"
    Except.ok [Block.fieldsWithBanner
      [("Emer Mbiemer:", safe_customer),
       ("Marka:", safe_product),
       ("Afati Garancise:", safe_warranty ++ " Muaj")]
      "FLETË GARANCIE"]
  | some st =>
    let safe_customer := pyOrStr customer_name "___________________"
    let safe_product := pyOrStr product_name "________________"
    let safe_warranty := pyOrStr warranty_period "1"
    match st with
    | SectionStep.styleCreation =>
      Except.error "NameError: name form_label_style is not defined"
    | SectionStep.afterStyle =>
      Except.ok [Block.para ("Emer Mbiemer: " ++ safe_customer),
                 Block.para ("Marka: " ++ safe_product),
                 Block.para ("Afati Garancise: " ++ safe_warranty ++ " Muaj")]

/-- Modelled from the claim wording of C3 (spec side, for comparison with
`warrantyPeriodOfRaw`): strip the trailing unit suffix "muaj" or "month"
(case-sensitive) and surrounding whitespace from the raw value. -/
def claimStrip (s : String) : String :=
  let t := pyStrip s
  let l := t.toList
  let l2 :=
    if leadsWith "muaj".toList.reverse l.reverse then l.take (l.length - 4)
    else if leadsWith "month".toList.reverse l.reverse then l.take (l.length - 5)
    else l
  pyStrip l2.asString

/-- Modelled from the claim wording of C3 (spec side): the normalised
warranty defaults to "1" on the explicit-`False` sentinel, on an absent
value, and on a value that is empty after stripping. -/
def claimNormalize : WVal → String
  | WVal.fls => "1"
  | WVal.absent => "1"
  | WVal.str s => defaultIfEmpty (claimStrip s)

/-- Modelled from the claim wording of C8 (spec side): the
`certificate_<invoice-name>_<timestamp>.pdf` filename pattern. -/
def claimFilename (invName ts : String) : String :=
  s!"certificate_{invName}_{ts}.pdf"

end WarrantyPdf

namespace WarrantyPdf

/-- Product fixture: an ordinary eligible product. -/
def pTv : Product := { pid := 1, display_name := "TV X", pname := some "TV X", warranty := WVal.str "24 muaj" }

/-- Product fixture: a second ordinary eligible product. -/
def pOven : Product := { pid := 2, display_name := "Oven Y", pname := some "Oven Y", warranty := WVal.str "12 muaj" }

/-- Product fixture: a product with the explicit-`False` warranty sentinel. -/
def pFridge : Product := { pid := 3, display_name := "Fridge", pname := some "Fridge", warranty := WVal.fls }

/-- Product fixture: a gift card, excluded by display-name containment. -/
def pGift : Product := { pid := 5, display_name := "Apple Gift Card 50", pname := some "Apple Gift Card 50", warranty := WVal.absent }

/-- Product fixture: ordinary data but carrying the default excluded id. -/
def pExcludedId : Product := { pid := 7884, display_name := "Shipping", pname := some "Shipping", warranty := WVal.absent }

/-- Product fixture: a product with id 42 (used against the settings store). -/
def pWidget : Product := { pid := 42, display_name := "Widget", pname := some "Widget", warranty := WVal.str "3" }

/-- Invoice fixture for C1: one eligible line. -/
def invA : Invoice :=
  { mid := 11, name := "INV-2025-0001", partner_name := some "Alice",
    invoice_date := some ⟨2025, 3, 7⟩,
    lines := [⟨some pTv⟩, ⟨some pExcludedId⟩], now := "20260101_120000" }

/-- Invoice fixture for C2: one line whose product carries the sentinel. -/
def invB : Invoice :=
  { mid := 12, name := "INV-2025-0002", partner_name := some "Bob",
    invoice_date := none,
    lines := [⟨some pFridge⟩, ⟨some pTv⟩], now := "20260101_130000" }

/-- Invoice fixture for C5: only excluded or empty lines. -/
def invEmpty : Invoice :=
  { mid := 13, name := "INV-2025-0003", partner_name := some "Carol",
    invoice_date := none,
    lines := [⟨none⟩, ⟨some pGift⟩, ⟨some pExcludedId⟩], now := "20260101_140000" }

/-- Invoice fixture for C6: two eligible lines. -/
def invC : Invoice :=
  { mid := 14, name := "INV-2025-0004", partner_name := some "Dana",
    invoice_date := none,
    lines := [⟨some pTv⟩, ⟨some pOven⟩], now := "20260101_150000" }

/-- Invoice fixture for C7: a single line for product id 42. -/
def invW : Invoice :=
  { mid := 15, name := "INV-2025-0005", partner_name := some "Eve",
    invoice_date := none,
    lines := [⟨some pWidget⟩], now := "20260101_160000" }

/-- Store fixture for C7: the administrator stored product id 42 as the
exclusion list. -/
def storeC7 : Store := setParam emptyStore "warranty_pdf.exclude_product_ids" "42"

lemma asString_toList (s : String) : s.toList.asString = s := rfl

lemma toList_asString (l : List Char) : l.asString.toList = l := rfl

lemma getParam_setParam_same (st : Store) (k v d : String) :
    getParam (setParam st k v) k d = v := by
  simp [getParam, setParam]

lemma getParam_setParam_other (st : Store) (k q v d : String) (h : q ≠ k) :
    getParam (setParam st k v) q d = getParam st q d := by
  simp [getParam, setParam, h]

lemma digitChar_ne_comma {n : Nat} (h : n < 10) : Nat.digitChar n ≠ ',' := by
  interval_cases n <;> decide

lemma toDigitsCore_no_comma (fuel : Nat) :
    ∀ (n : Nat) (ds : List Char), ',' ∉ ds → ',' ∉ Nat.toDigitsCore 10 fuel n ds := by
  induction fuel with
  | zero => intro n ds h; simpa [Nat.toDigitsCore] using h
  | succ f ih =>
    intro n ds h
    simp only [Nat.toDigitsCore]
    have hd : ',' ∉ Nat.digitChar (n % 10) :: ds := by
      intro hmem
      rcases List.mem_cons.mp hmem with h1 | h1
      · exact digitChar_ne_comma (Nat.mod_lt n (by decide)) h1.symm
      · exact h h1
    split
    · exact hd
    · exact ih _ _ hd

lemma repr_no_comma (n : Nat) : ',' ∉ (Nat.repr n).toList := by
  show ',' ∉ Nat.toDigitsCore 10 (n + 1) n []
  exact toDigitsCore_no_comma (n + 1) n [] (by simp)

lemma pySplitAux_cons (sep c : Char) (cs acc : List Char) :
    pySplitAux sep (c :: cs) acc
      = if c = sep then acc.reverse :: pySplitAux sep cs []
        else pySplitAux sep cs (c :: acc) := rfl

lemma pySplitAux_no_sep (sep : Char) :
    ∀ x acc : List Char, sep ∉ x → pySplitAux sep x acc = [acc.reverse ++ x] := by
  intro x
  induction x with
  | nil => intro acc _; simp [pySplitAux]
  | cons c cs ih =>
    intro acc h
    have hc : ¬(c = sep) := by rintro rfl; exact h (List.mem_cons_self _ _)
    rw [pySplitAux_cons, if_neg hc, ih (c :: acc) (fun hm => h (List.mem_cons_of_mem _ hm))]
    simp

lemma pySplitAux_with_sep (sep : Char) :
    ∀ x rest acc : List Char, sep ∉ x →
      pySplitAux sep (x ++ sep :: rest) acc
        = (acc.reverse ++ x) :: pySplitAux sep rest [] := by
  intro x
  induction x with
  | nil =>
    intro rest acc _
    show pySplitAux sep (sep :: rest) acc = (acc.reverse ++ []) :: pySplitAux sep rest []
    rw [pySplitAux_cons, if_pos rfl]
    simp
  | cons c cs ih =>
    intro rest acc h
    have hc : ¬(c = sep) := by rintro rfl; exact h (List.mem_cons_self _ _)
    show pySplitAux sep (c :: (cs ++ sep :: rest)) acc
        = (acc.reverse ++ c :: cs) :: pySplitAux sep rest []
    rw [pySplitAux_cons, if_neg hc, ih rest (c :: acc) (fun hm => h (List.mem_cons_of_mem _ hm))]
    simp

lemma pySplit_pyJoin (sep : Char) :
    ∀ l : List (List Char), l ≠ [] → (∀ x ∈ l, sep ∉ x) →
      pySplit sep (pyJoin sep l) = l := by
  intro l
  induction l with
  | nil => intro h _; exact absurd rfl h
  | cons x xs ih =>
    intro _ hall
    cases xs with
    | nil =>
      have := pySplitAux_no_sep sep x [] (hall x (List.mem_cons_self _ _))
      simpa [pySplit, pyJoin] using this
    | cons y ys =>
      have hx : sep ∉ x := hall x (List.mem_cons_self _ _)
      show pySplitAux sep (x ++ sep :: pyJoin sep (y :: ys)) [] = x :: (y :: ys)
      rw [pySplitAux_with_sep sep x _ [] hx]
      simp only [List.reverse_nil, List.nil_append]
      congr 1
      exact ih (by simp) (fun z hz => hall z (List.mem_cons_of_mem _ hz))

lemma mem_eligibleProducts {ls : List InvoiceLine} {p : Product}
    (hmem : p ∈ eligibleProducts ls) :
    ¬(p.pid = 7884 ∨ p.pid = 6) ∧ ¬(strHas p.display_name "Gift Card" = true) := by
  obtain ⟨l, -, hl⟩ := List.mem_filterMap.mp hmem
  split at hl
  · exact Option.noConfusion hl
  · split at hl
    · exact Option.noConfusion hl
    · split at hl
      · exact Option.noConfusion hl
      · obtain rfl := Option.some.inj hl
        constructor <;> assumption

/-- Claim C1 (code bug): the claim says that an invoice whose filter yields
N included lines produces a merged document of exactly N certificate pages.
In the code, `generate_warranty_pdfs` passes the whole Python list
`products` as the single-record `product` argument of
`_create_warranty_pdf_direct`; `product.name` raises an `AttributeError`,
the `except` handler raises again at `product.id`, and the caller returns
the danger notification.  Evaluated at `invA` (exactly one included line),
the outcome is the error notification, not a one-page document. -/
theorem C1_merged_document_bug :
    eligibleProducts invA.lines = [pTv]
    ∧ generate_warranty_pdfs invA false
        = GenResult.genError "Error generating warranty PDF: list object has no attribute id"
    ∧ (∀ f pdf, generate_warranty_pdfs invA false ≠ GenResult.downloadUrl f pdf) := by
  refine ⟨by decide, by decide, ?_⟩
  intro f pdf h
  rw [(by decide : generate_warranty_pdfs invA false
    = GenResult.genError "Error generating warranty PDF: list object has no attribute id")] at h
  exact GenResult.noConfusion h

/-- Claim C2: when at least one non-excluded product carries the
explicit-`False` warranty sentinel and the confirmation context flag is not
set, `generate_warranty_pdfs` returns the confirmation-wizard action listing
exactly the affected product ids and renders nothing; re-invoked with the
flag set (as `action_print` does), it proceeds to the rendering stage on the
full product list, which contains the affected products. -/
theorem C2_confirmation_protocol (inv : Invoice)
    (h : missingWarrantyProducts (eligibleProducts inv.lines) ≠ []) :
    generate_warranty_pdfs inv false
      = GenResult.missingWizard inv.mid
          ((missingWarrantyProducts (eligibleProducts inv.lines)).map Product.pid)
    ∧ generate_warranty_pdfs inv true = renderStage inv (eligibleProducts inv.lines)
    ∧ ∀ p ∈ missingWarrantyProducts (eligibleProducts inv.lines),
        p ∈ eligibleProducts inv.lines := by
  have hps : ¬(eligibleProducts inv.lines = []) := by
    intro hnil
    apply h
    rw [missingWarrantyProducts, hnil]
    rfl
  refine ⟨?_, ?_, ?_⟩
  · unfold generate_warranty_pdfs
    rw [if_neg hps, if_pos ⟨h, rfl⟩]
  · unfold generate_warranty_pdfs
    rw [if_neg hps, if_neg ?_]
    rintro ⟨-, h2⟩
    exact absurd h2 (by decide)
  · intro p hp
    exact List.mem_of_mem_filter hp

/-- Witness for C2 at the concrete invoice `invB`, whose fridge line carries
the explicit-`False` sentinel. -/
theorem C2_confirmation_protocol_witness :
    generate_warranty_pdfs invB false = GenResult.missingWizard 12 [3]
    ∧ generate_warranty_pdfs invB true = renderStage invB (eligibleProducts invB.lines) := by
  have h := C2_confirmation_protocol invB (by decide)
  exact ⟨h.1.trans (by decide), h.2.1⟩

/-- Claim C3 (corrected), counterexample: the claim describes the
normalisation as stripping the TRAILING suffixes "muaj" / "month", but the
code removes every occurrence of the two needles " muaj" and " month",
each with a mandatory leading space.  On the raw value "muaj" (no leading
space) the claimed normalisation yields "1" while the code keeps "muaj". -/
theorem C3_trailing_strip_counterexample :
    warrantyPeriodOfRaw (WVal.str "muaj") = "muaj"
    ∧ claimNormalize (WVal.str "muaj") = "1"
    ∧ warrantyPeriodOfRaw (WVal.str "muaj") ≠ claimNormalize (WVal.str "muaj") := by
  decide

/-- Claim C3 (amended): the normalised warranty value is never empty — every
occurrence of " muaj" and " month" (case-sensitive, leading space included)
is removed and surrounding whitespace stripped, and the sentinel, an absent
value, and a value empty after removal all default to "1"; the six
enumerated examples normalise as the claim lists. -/
theorem C3_normalize_amended :
    (∀ w : WVal, warrantyPeriodOfRaw w ≠ "")
    ∧ warrantyPeriodOfRaw WVal.absent = "1"
    ∧ warrantyPeriodOfRaw (WVal.str "") = "1"
    ∧ warrantyPeriodOfRaw WVal.fls = "1"
    ∧ warrantyPeriodOfRaw (WVal.str " muaj") = "1"
    ∧ warrantyPeriodOfRaw (WVal.str "3 muaj") = "3"
    ∧ warrantyPeriodOfRaw (WVal.str "5 month") = "5" := by
  refine ⟨fun w => ?_, by decide, by decide, by decide, by decide, by decide, by decide⟩
  show defaultIfEmpty _ ≠ ""
  unfold defaultIfEmpty
  split
  · decide
  · assumption

/-- Claim C4: a product whose id is in the excluded-id set (7884 or 6), or
whose display name contains the excluded substring "Gift Card", never
appears among the included products and never appears in the
needs-confirmation set, for any input line list. -/
theorem C4_exclusion_invariant (ls : List InvoiceLine) (p : Product)
    (h : p.pid = 7884 ∨ p.pid = 6 ∨ strHas p.display_name "Gift Card" = true) :
    p ∉ eligibleProducts ls ∧ p ∉ missingWarrantyProducts (eligibleProducts ls) := by
  have key : p ∉ eligibleProducts ls := by
    intro hmem
    obtain ⟨h1, h2⟩ := mem_eligibleProducts hmem
    rcases h with h | h | h
    · exact h1 (Or.inl h)
    · exact h1 (Or.inr h)
    · exact h2 h
  exact ⟨key, fun hm => key (List.mem_of_mem_filter hm)⟩

/-- Witness for C4 at a concrete gift-card line. -/
theorem C4_exclusion_invariant_witness :
    pGift ∉ eligibleProducts [⟨some pGift⟩, ⟨some pTv⟩]
    ∧ pGift ∉ missingWarrantyProducts (eligibleProducts [⟨some pGift⟩, ⟨some pTv⟩]) :=
  C4_exclusion_invariant [⟨some pGift⟩, ⟨some pTv⟩] pGift (Or.inr (Or.inr (by decide)))

/-- Claim C5: an invoice with zero usable product lines (no lines, lines
without products, or all products excluded) yields the distinguished
"no valid products" warning outcome — never the generation-error outcomes
and never a document delivered as success. -/
theorem C5_empty_input (inv : Invoice) (confirm : Bool)
    (h : eligibleProducts inv.lines = []) :
    generate_warranty_pdfs inv confirm = GenResult.noProductsWarning
    ∧ generate_warranty_pdfs inv confirm ≠ GenResult.pdfError
    ∧ (∀ msg, generate_warranty_pdfs inv confirm ≠ GenResult.genError msg)
    ∧ (∀ f pdf, generate_warranty_pdfs inv confirm ≠ GenResult.downloadUrl f pdf) := by
  have hg : generate_warranty_pdfs inv confirm = GenResult.noProductsWarning := by
    unfold generate_warranty_pdfs
    rw [if_pos h]
  refine ⟨hg, ?_, ?_, ?_⟩
  · rw [hg]; exact fun hc => GenResult.noConfusion hc
  · intro msg; rw [hg]; exact fun hc => GenResult.noConfusion hc
  · intro f pdf; rw [hg]; exact fun hc => GenResult.noConfusion hc

/-- Witness for C5 at a concrete invoice whose lines are a product-less
line, a gift card, and the default excluded id. -/
theorem C5_empty_input_witness :
    generate_warranty_pdfs invEmpty false = GenResult.noProductsWarning :=
  (C5_empty_input invEmpty false (by decide)).1

/-- Claim C6 (code bug): the claim says a failing line is skipped and the
document is still produced from the remaining lines.  The code has no
per-line composition at all: one `_create_warranty_pdf_direct` call receives
the whole list and any failure inside it loses every line.  Evaluated at
`invC` (two included lines), the outcome is the error notification rather
than a partial document. -/
theorem C6_no_partial_success_bug :
    (eligibleProducts invC.lines).length = 2
    ∧ generate_warranty_pdfs invC false
        = GenResult.genError "Error generating warranty PDF: list object has no attribute id"
    ∧ (∀ f pdf, generate_warranty_pdfs invC false ≠ GenResult.downloadUrl f pdf) := by
  refine ⟨by decide, by decide, ?_⟩
  intro f pdf h
  rw [(by decide : generate_warranty_pdfs invC false
    = GenResult.genError "Error generating warranty PDF: list object has no attribute id")] at h
  exact GenResult.noConfusion h

/-- Claim C7 (code bug): the claim says the eligibility filter applies the
exclusion list stored in the configuration store.  The filter in the code
hardcodes the ids 7884 and 6 and the substring "Gift Card" and never reads
`warranty_pdf.exclude_product_ids`: with the setting stored as "42", the
line for product id 42 is still included and generation is attempted. -/
theorem C7_settings_not_consulted :
    (get_settings storeC7).exclude_product_ids = ["42"]
    ∧ eligibleProducts invW.lines = [pWidget]
    ∧ generate_warranty_pdfs invW false ≠ GenResult.noProductsWarning := by
  refine ⟨by decide, by decide, ?_⟩
  intro h
  rw [(by decide : generate_warranty_pdfs invW false
    = GenResult.genError "Error generating warranty PDF: list object has no attribute id")] at h
  exact GenResult.noConfusion h

/-- Claim C8 (corrected), counterexample: the generated filename starts with
"garancia_", not "certificate_", so it does not follow the
`certificate_<invoice-name>_<timestamp>.pdf` pattern of the claim. -/
theorem C8_filename_counterexample :
    warrantyFilename "INV-2025-0001" "20260101_120000"
      = "garancia_INV-2025-0001_20260101_120000.pdf"
    ∧ warrantyFilename "INV-2025-0001" "20260101_120000"
      ≠ claimFilename "INV-2025-0001" "20260101_120000" := by
  decide

/-- Claim C8 (amended): the filename handed to the attachment sink follows
the `garancia_<invoice-name>_<timestamp>.pdf` pattern, for every invoice
name and timestamp. -/
theorem C8_filename_amended (invName ts : String) :
    warrantyFilename invName ts = "garancia_" ++ invName ++ "_" ++ ts ++ ".pdf" := by
  unfold warrantyFilename
  apply String.ext
  simp [String.data_append, List.append_assoc, toString]

/-- Claim C9 (code bug): the claim says any rendering failure inside the
customer/product field block falls back to the plain-text rendering of the
three label/value lines.  The fallback paragraphs are styled with
`form_label_style`, a name bound by the first statement of the `try` block,
so when that first statement is the one that raised, the `except` handler
itself raises a `NameError` and the section aborts; for failures after it
the fallback does render the three lines. -/
theorem C9_fallback_namerror_bug :
    createCustomerProductSection "Alice" "TV X" "24" (some SectionStep.styleCreation)
      = Except.error "NameError: name form_label_style is not defined"
    ∧ createCustomerProductSection "Alice" "TV X" "24" (some SectionStep.afterStyle)
      = Except.ok [Block.para "Emer Mbiemer: Alice", Block.para "Marka: TV X",
                   Block.para "Afati Garancise: 24 Muaj"] :=
  ⟨rfl, rfl⟩

/-- Claim C10: the settings round trip.  Saving a non-empty product
selection and a non-empty period stores the comma-joined decimal ids, and
`get_settings` returns exactly those ids as decimal strings together with
the saved period; saving an empty selection stores the fallback id list
["7884"]; saving an empty period stores the fallback "1". -/
theorem C10_settings_roundtrip (ids : List Nat) (period : String) (st : Store) :
    (ids ≠ [] → period ≠ "" →
      get_settings (save_settings ids period st)
        = { exclude_product_ids := ids.map Nat.repr, default_warranty_period := period })
    ∧ (ids = [] →
      (get_settings (save_settings ids period st)).exclude_product_ids = ["7884"])
    ∧ (period = "" →
      (get_settings (save_settings ids period st)).default_warranty_period = "1") := by
  have hE : getParam (save_settings ids period st) "warranty_pdf.exclude_product_ids" "7884"
      = (if ids = [] then "7884"
         else (pyJoin ',' (ids.map fun i => (Nat.repr i).toList)).asString) := by
    unfold save_settings
    rw [getParam_setParam_other _ _ _ _ _ (by decide), getParam_setParam_same]
  have hP : getParam (save_settings ids period st) "warranty_pdf.default_warranty_period" "1"
      = pyOrStr period "1" := by
    unfold save_settings
    rw [getParam_setParam_same]
  refine ⟨?_, ?_, ?_⟩
  · intro h1 h2
    unfold get_settings
    rw [hE, hP, if_neg h1, toList_asString,
      pySplit_pyJoin ',' (ids.map fun i => (Nat.repr i).toList)
        (by simpa using h1)
        (by
          intro x hx
          obtain ⟨i, -, rfl⟩ := List.mem_map.mp hx
          exact repr_no_comma i),
      List.map_map]
    have hfun : (List.asString ∘ fun i => (Nat.repr i).toList) = Nat.repr := by
      funext i
      exact asString_toList (Nat.repr i)
    rw [hfun]
    unfold pyOrStr
    rw [if_neg h2]
  · intro h1
    show (pySplit ',' (getParam (save_settings ids period st)
        "warranty_pdf.exclude_product_ids" "7884").toList).map List.asString = ["7884"]
    rw [hE, if_pos h1]
    decide
  · intro h2
    show getParam (save_settings ids period st) "warranty_pdf.default_warranty_period" "1" = "1"
    rw [hP]
    unfold pyOrStr
    rw [if_pos h2]

/-- Witness for C10 at concrete saves: a non-empty selection with a
non-empty period, an empty selection, and an empty period. -/
theorem C10_settings_roundtrip_witness :
    get_settings (save_settings [3, 42] "5" emptyStore)
      = { exclude_product_ids := [3, 42].map Nat.repr, default_warranty_period := "5" }
    ∧ (get_settings (save_settings [] "5" emptyStore)).exclude_product_ids = ["7884"]
    ∧ (get_settings (save_settings [3] "" emptyStore)).default_warranty_period = "1" :=
  ⟨(C10_settings_roundtrip [3, 42] "5" emptyStore).1 (by decide) (by decide),
   (C10_settings_roundtrip [] "5" emptyStore).2.1 rfl,
   (C10_settings_roundtrip [3] "" emptyStore).2.2 rfl⟩

end WarrantyPdf
